import Mathlib

/-!
Verification of the ESP32 audio relay server (src/server.py).

The server accepts one TCP connection at a time, accumulates raw audio
chunks until the literal END_RECORDING_SIGNAL marker appears inside a
received chunk, wraps the accumulated audio in a 44-byte WAV header,
submits it to a transcription collaborator, and relays the synthesis
collaborator's audio chunks back onto the socket.

Bytes are modelled as `Nat` (values 0..255 in practice), byte strings as
`List Nat`.  Python's `int.to_bytes(n, 'little')`, which raises
`OverflowError` when the value does not fit, is modelled with `Option`.
The two external collaborators are modelled as oracle functions returning
`Except Unit _` (an `error` models a raised exception).
-/

namespace Server

/-- Audio configuration constants from server.py. -/
def SAMPLE_RATE : Nat := 16000

/-- Channel count constant from server.py. -/
def CHANNELS : Nat := 1

/-- Sample width in bytes (16-bit audio) from server.py. -/
def SAMPLE_WIDTH : Nat := 2

/-- Read size of each socket recv call. -/
def CHUNK_SIZE : Nat := 1024

/-- ASCII bytes of the literal marker b"END_RECORDING_SIGNAL". -/
def END_RECORDING_SIGNAL : List Nat :=
  [69, 78, 68, 95, 82, 69, 67, 79, 82, 68, 73, 78, 71, 95, 83, 73, 71, 78, 65, 76]

/-- Little-endian byte decomposition of a natural number into n bytes
(the digits written by Python int.to_bytes when the value fits). -/
def toBytesLE : Nat → Nat → List Nat
  | _, 0 => []
  | v, n + 1 => v % 256 :: toBytesLE (v / 256) n

/-- Python v.to_bytes(n, little): some bytes when the value fits in n bytes,
none models the OverflowError raised otherwise. -/
def to_bytes (v n : Nat) : Option (List Nat) :=
  if v < 2 ^ (8 * n) then some (toBytesLE v n) else none

/-- Embedding of create_wav_header (server.py lines 48-63): the 44-byte RIFF/WAVE
header followed by the raw payload.  Field order and widths follow the
sequence of header.write calls in the source. -/
def create_wav_header (audio_data : List Nat)
    (sample_rate num_channels sample_width : Nat) : Option (List Nat) := do
  let datasize := audio_data.length
  let sizeField ← to_bytes (datasize + 36) 4
  let fmtChunkSize ← to_bytes 16 4
  let fmtTag ← to_bytes 1 2
  let chField ← to_bytes num_channels 2
  let rateField ← to_bytes sample_rate 4
  let byteRateField ← to_bytes (sample_rate * num_channels * sample_width) 4
  let blockAlignField ← to_bytes (num_channels * sample_width) 2
  let bitsField ← to_bytes (sample_width * 8) 2
  let dataSizeField ← to_bytes datasize 4
  pure ([82, 73, 70, 70] ++ sizeField ++ [87, 65, 86, 69, 102, 109, 116, 32] ++
    fmtChunkSize ++ fmtTag ++ chField ++ rateField ++ byteRateField ++
    blockAlignField ++ bitsField ++ [100, 97, 116, 97] ++ dataSizeField ++ audio_data)

/-- Whether pat occurs at the front of s (byte-exact). -/
def isPrefixAt : List Nat → List Nat → Bool
  | [], _ => true
  | _ :: _, [] => false
  | p :: ps, c :: cs => p == c && isPrefixAt ps cs

/-- Python data.split(pat)[0] restricted to the case pat in data:
some pre gives the bytes strictly before the first occurrence of pat in s;
none means pat does not occur in s.  Python (pat in data) is true exactly
when this returns some. -/
def splitBefore (pat : List Nat) : List Nat → Option (List Nat)
  | [] => if isPrefixAt pat [] then some [] else none
  | c :: cs =>
      if isPrefixAt pat (c :: cs) then some []
      else (splitBefore pat cs).map (fun t => c :: t)

/-- One outcome of a conn.recv call in the receive loop: either a chunk of
bytes (empty models the peer closing) or a raised socket.error. -/
inductive RecvEvent
  | chunk (data : List Nat)
  | err
deriving DecidableEq

/-- Why the receive loop stopped.  pending means the event list was exhausted
with the loop still waiting for more data. -/
inductive TermReason
  | marker
  | disconnect
  | sockErr
  | pending
deriving DecidableEq

/-- Embedding of the receive loop of main (server.py lines 151-169): folds the
sequence of recv outcomes into the accumulated audio buffer, stopping at an
empty read, at a chunk containing END_RECORDING_SIGNAL (appending only the
bytes before the marker), or at a socket error. -/
def recvLoop (buffer : List Nat) : List RecvEvent → List Nat × TermReason
  | [] => (buffer, TermReason.pending)
  | RecvEvent.err :: _ => (buffer, TermReason.sockErr)
  | RecvEvent.chunk d :: rest =>
      if d = [] then (buffer, TermReason.disconnect)
      else
        match splitBefore END_RECORDING_SIGNAL d with
        | some pre => (buffer ++ pre, TermReason.marker)
        | none => recvLoop (buffer ++ d) rest

/-- ASCII whitespace recognised by Python str.strip on byte-range text. -/
def isSpaceByte (c : Nat) : Bool :=
  c == 9 || c == 10 || c == 11 || c == 12 || c == 13 || c == 32

/-- Python text.strip(): drop whitespace from both ends. -/
def strip (s : List Nat) : List Nat :=
  ((s.dropWhile isSpaceByte).reverse.dropWhile isSpaceByte).reverse

/-- The synthesis collaborator's lazy stream: the chunks it yields in order;
fails records whether requesting the next chunk after them raises. -/
structure SynthStream where
  chunks : List (List Nat)
  fails : Bool
deriving DecidableEq

/-- The two external collaborators as oracles: transcribe is the Gemini
generate_content call on the WAV bytes (error models a raised exception, ok
gives the response text as bytes); synth is the ElevenLabs convert call. -/
structure Collaborators where
  transcribe : List Nat → Except Unit (List Nat)
  synth : List Nat → Except Unit SynthStream

/-- Observable effects of one session: the WAV buffers passed to the
transcription collaborator, the texts passed to the synthesis collaborator,
and the chunks written to the client socket by conn.sendall, in order. -/
structure SessionResult where
  transcribeCalls : List (List Nat)
  synthCalls : List (List Nat)
  sent : List (List Nat)
deriving DecidableEq

/-- Embedding of generate_and_stream_elevenlabs_audio (server.py lines 67-93):
returns the synthesis calls made and the chunks sent to the socket.  Empty
text short-circuits before calling the collaborator; empty chunks are
skipped by the if chunk guard; a stream failure after the yielded chunks is
caught, so exactly the yielded non-empty chunks are sent. -/
def generate_and_stream_elevenlabs_audio (text : List Nat)
    (convert : List Nat → Except Unit SynthStream) :
    List (List Nat) × List (List Nat) :=
  if strip text = [] then ([], [])
  else
    match convert text with
    | Except.error _ => ([text], [])
    | Except.ok st => ([text], st.chunks.filter (fun c => !c.isEmpty))

/-- Embedding of process_conversation (server.py lines 97-125): empty audio
short-circuits; header overflow or a transcription failure is caught with no
further calls; otherwise the response text is forwarded to synthesis. -/
def process_conversation (audio_bytes : List Nat) (collab : Collaborators) :
    SessionResult :=
  if audio_bytes = [] then ⟨[], [], []⟩
  else
    match create_wav_header audio_bytes SAMPLE_RATE CHANNELS SAMPLE_WIDTH with
    | none => ⟨[], [], []⟩
    | some wav_data =>
        match collab.transcribe wav_data with
        | Except.error _ => ⟨[wav_data], [], []⟩
        | Except.ok text =>
            let r := generate_and_stream_elevenlabs_audio text collab.synth
            ⟨[wav_data], r.1, r.2⟩

/-- One full session of main (server.py lines 146-172): receive until
termination, then process the accumulated audio. -/
def runSession (events : List RecvEvent) (collab : Collaborators) :
    SessionResult :=
  process_conversation (recvLoop [] events).1 collab

/-- Mock collaborators of the end-to-end scenario: transcription always
returns the text hello (bytes 104 101 108 108 111) and synthesis always
yields the two chunks AA and BB. -/
def mockCollab : Collaborators :=
  ⟨fun _ => Except.ok [104, 101, 108, 108, 111],
   fun _ => Except.ok ⟨[[65, 65], [66, 66]], false⟩⟩

/-- toBytesLE always produces exactly n bytes. -/
theorem toBytesLE_length (n : Nat) : ∀ v, (toBytesLE v n).length = n := by
  induction n with
  | zero => intro v; rfl
  | succ m ih => intro v; simp [toBytesLE, ih]

/-- to_bytes succeeds exactly on values that fit. -/
theorem to_bytes_eq (v n : Nat) (h : v < 2 ^ (8 * n)) :
    to_bytes v n = some (toBytesLE v n) := by
  simp [to_bytes, h]

/-- isPrefixAt decides the prefix relation. -/
theorem isPrefixAt_iff (p : List Nat) : ∀ s, isPrefixAt p s = true ↔ ∃ t, s = p ++ t := by
  induction p with
  | nil => intro s; simp [isPrefixAt]
  | cons a ps ih =>
    intro s
    cases s with
    | nil => simp [isPrefixAt]
    | cons c cs =>
      simp only [isPrefixAt, Bool.and_eq_true, beq_iff_eq, ih, List.cons_append,
        List.cons.injEq]
      constructor
      · rintro ⟨h1, t, h2⟩
        exact ⟨t, h1.symm, h2⟩
      · rintro ⟨t, h1, h2⟩
        exact ⟨h1.symm, t, h2⟩

/-- When splitBefore finds the pattern, the scanned string decomposes as the
returned pre, then the pattern, then a suffix. -/
theorem splitBefore_some (pat s : List Nat) :
    ∀ pre, splitBefore pat s = some pre → ∃ suf, s = pre ++ pat ++ suf := by
  induction s with
  | nil =>
    intro pre h
    simp only [splitBefore] at h
    split at h
    · next hp =>
      obtain ⟨t, ht⟩ := (isPrefixAt_iff pat []).mp hp
      cases h
      exact ⟨t, by simpa using ht⟩
    · cases h
  | cons c cs ih =>
    intro pre h
    simp only [splitBefore] at h
    split at h
    · next hp =>
      obtain ⟨t, ht⟩ := (isPrefixAt_iff pat (c :: cs)).mp hp
      cases h
      exact ⟨t, by simpa using ht⟩
    · next hp =>
      cases hsp : splitBefore pat cs with
      | none => rw [hsp] at h; cases h
      | some pre0 =>
        rw [hsp] at h
        simp only [Option.map_some', Option.some.injEq] at h
        obtain ⟨suf, hsuf⟩ := ih pre0 hsp
        exact ⟨suf, by simp [← h, hsuf]⟩

/-- A pattern is found at offset zero in itself. -/
theorem splitBefore_self (pat : List Nat) : splitBefore pat pat = some [] := by
  cases pat with
  | nil => simp [splitBefore, isPrefixAt]
  | cons c cs =>
    have h : isPrefixAt (c :: cs) (c :: cs) = true :=
      (isPrefixAt_iff _ _).mpr ⟨[], by simp⟩
    simp [splitBefore, h]

/-- The marker never occurs in an empty chunk. -/
theorem splitBefore_sig_nil : splitBefore END_RECORDING_SIGNAL [] = none := by decide

/-- A chunk in which the marker occurs ends the receive loop, appending
exactly the bytes before the first occurrence. -/
theorem recvLoop_marker_step (buffer d pre : List Nat) (rest : List RecvEvent)
    (h : splitBefore END_RECORDING_SIGNAL d = some pre) :
    recvLoop buffer (RecvEvent.chunk d :: rest) = (buffer ++ pre, TermReason.marker) := by
  have hd : d ≠ [] := by
    intro hd
    subst hd
    rw [splitBefore_sig_nil] at h
    cases h
  simp [recvLoop, hd, h]

/-- Marker-free non-empty chunks pass through the receive loop by plain
concatenation onto the buffer. -/
theorem recvLoop_append (chunks : List (List Nat)) :
    ∀ buffer rest,
      (∀ c ∈ chunks, c ≠ [] ∧ splitBefore END_RECORDING_SIGNAL c = none) →
      recvLoop buffer (chunks.map RecvEvent.chunk ++ rest) =
        recvLoop (buffer ++ chunks.flatten) rest := by
  induction chunks with
  | nil => intro buffer rest _; simp
  | cons c cs ih =>
    intro buffer rest h
    obtain ⟨hc1, hc2⟩ := h c (by simp)
    have hrest : ∀ x ∈ cs, x ≠ [] ∧ splitBefore END_RECORDING_SIGNAL x = none :=
      fun x hx => h x (by simp [hx])
    simp [recvLoop, hc1, hc2, ih _ _ hrest, List.append_assoc]

/-- Dropping empty chunks does not change the concatenated bytes. -/
theorem flatten_filter_isEmpty (l : List (List Nat)) :
    (l.filter fun c => !c.isEmpty).flatten = l.flatten := by
  induction l with
  | nil => rfl
  | cons c cs ih =>
    cases c with
    | nil => exact ih
    | cons a as => exact congrArg (fun t => a :: as ++ t) ih

/-- The header builder succeeds under the fixed parameters whenever the
size fields fit in 32 bits, producing the append-form container. -/
theorem create_wav_header_eq (audio : List Nat) (h : audio.length + 36 < 2 ^ 32) :
    create_wav_header audio SAMPLE_RATE CHANNELS SAMPLE_WIDTH =
      some ([82, 73, 70, 70] ++ toBytesLE (audio.length + 36) 4 ++
        [87, 65, 86, 69, 102, 109, 116, 32] ++ toBytesLE 16 4 ++ toBytesLE 1 2 ++
        toBytesLE 1 2 ++ toBytesLE 16000 4 ++ toBytesLE 32000 4 ++ toBytesLE 2 2 ++
        toBytesLE 16 2 ++ [100, 97, 116, 97] ++ toBytesLE (audio.length) 4 ++ audio) := by
  have h1 : audio.length + 36 < 4294967296 := by simpa using h
  have h2 : audio.length < 4294967296 := by omega
  simp [create_wav_header, SAMPLE_RATE, CHANNELS, SAMPLE_WIDTH, to_bytes, h1, h2]

/-- Whenever the audio is non-empty and the header fits, process_conversation
calls the transcription collaborator exactly once, on the WAV container. -/
theorem process_conversation_calls (audio : List Nat) (collab : Collaborators)
    (h1 : audio ≠ []) (h2 : audio.length + 36 < 2 ^ 32) :
    ∃ w, create_wav_header audio SAMPLE_RATE CHANNELS SAMPLE_WIDTH = some w ∧
      (process_conversation audio collab).transcribeCalls = [w] := by
  obtain ⟨w, hw⟩ : ∃ w, create_wav_header audio SAMPLE_RATE CHANNELS SAMPLE_WIDTH = some w :=
    ⟨_, create_wav_header_eq audio h2⟩
  refine ⟨w, hw, ?_⟩
  unfold process_conversation
  rw [if_neg h1, hw]
  cases hE : collab.transcribe w <;> simp [hE]

/-- Collaborators whose transcription call always raises. -/
def failingCollab : Collaborators :=
  ⟨fun _ => Except.error (), fun _ => Except.ok ⟨[[1]], false⟩⟩

set_option maxHeartbeats 2000000 in
/-- C1: with the fixed parameters (16000 Hz, 1 channel, 2-byte samples) and a
non-empty payload whose size fields fit in 32 bits, create_wav_header returns
exactly a 44-byte header followed by the unmodified payload; the little-endian
header fields at their canonical offsets are total-size-minus-8 = len+36, the
PCM format tag 1, the channel count, the sample rate, byte rate =
rate*channels*width, block align = channels*width, bits-per-sample = width*8,
and data-size = len. -/
theorem claim_c1_container (payload : List Nat) (hne : payload ≠ [])
    (hfit : payload.length + 36 < 2 ^ 32) :
    ∃ out, create_wav_header payload SAMPLE_RATE CHANNELS SAMPLE_WIDTH = some out ∧
      out.length = 44 + payload.length ∧
      out.drop 44 = payload ∧
      out.take 4 = [82, 73, 70, 70] ∧
      (out.drop 4).take 4 = toBytesLE (payload.length + 36) 4 ∧
      (out.drop 8).take 8 = [87, 65, 86, 69, 102, 109, 116, 32] ∧
      (out.drop 16).take 4 = toBytesLE 16 4 ∧
      (out.drop 20).take 2 = toBytesLE 1 2 ∧
      (out.drop 22).take 2 = toBytesLE CHANNELS 2 ∧
      (out.drop 24).take 4 = toBytesLE SAMPLE_RATE 4 ∧
      (out.drop 28).take 4 = toBytesLE (SAMPLE_RATE * CHANNELS * SAMPLE_WIDTH) 4 ∧
      (out.drop 32).take 2 = toBytesLE (CHANNELS * SAMPLE_WIDTH) 2 ∧
      (out.drop 34).take 2 = toBytesLE (SAMPLE_WIDTH * 8) 2 ∧
      (out.drop 36).take 4 = [100, 97, 116, 97] ∧
      (out.drop 40).take 4 = toBytesLE payload.length 4 := by
  refine ⟨_, create_wav_header_eq payload hfit, ?_, rfl, rfl, rfl, rfl, rfl, rfl,
    rfl, rfl, rfl, rfl, rfl, rfl, rfl⟩
  simp [toBytesLE_length]
  omega

/-- Witness for C1 at the concrete payload [1, 2]: the container exists and
has exactly 44 + 2 bytes. -/
theorem claim_c1_container_witness :
    ∃ out, create_wav_header [1, 2] SAMPLE_RATE CHANNELS SAMPLE_WIDTH = some out ∧
      out.length = 46 := by
  obtain ⟨out, h1, h2, -⟩ := claim_c1_container [1, 2] (by decide) (by decide)
  exact ⟨out, h1, by simpa using h2⟩

/-- C3: if the accumulated buffer is empty when the recording terminates, the
session makes no transcription call, no synthesis call, and sends no response
bytes before the connection is closed. -/
theorem claim_c3_empty_audio (events : List RecvEvent) (collab : Collaborators)
    (h : (recvLoop [] events).1 = []) :
    (runSession events collab).transcribeCalls = [] ∧
    (runSession events collab).synthCalls = [] ∧
    (runSession events collab).sent = [] := by
  unfold runSession
  rw [h]
  exact ⟨rfl, rfl, rfl⟩

/-- Witness for C3: the marker arriving as the very first chunk terminates the
session with an empty buffer and no collaborator activity. -/
theorem claim_c3_empty_audio_witness :
    (runSession [RecvEvent.chunk END_RECORDING_SIGNAL] mockCollab).transcribeCalls = [] ∧
    (runSession [RecvEvent.chunk END_RECORDING_SIGNAL] mockCollab).synthCalls = [] ∧
    (runSession [RecvEvent.chunk END_RECORDING_SIGNAL] mockCollab).sent = [] :=
  claim_c3_empty_audio [RecvEvent.chunk END_RECORDING_SIGNAL] mockCollab (by decide)

/-- C4: in a session whose transcription call fails, the synthesis collaborator
is never called and no response bytes are written to the client socket; the
exception is caught so the session still completes, with no retry. -/
theorem claim_c4_transcription_failure (audio : List Nat) (collab : Collaborators)
    (hfail : ∀ w, collab.transcribe w = Except.error ()) :
    (process_conversation audio collab).synthCalls = [] ∧
    (process_conversation audio collab).sent = [] := by
  unfold process_conversation
  split
  · exact ⟨rfl, rfl⟩
  · cases hH : create_wav_header audio SAMPLE_RATE CHANNELS SAMPLE_WIDTH <;>
      simp [hH, hfail]

/-- Witness for C4 with always-failing transcription on the audio [5]. -/
theorem claim_c4_transcription_failure_witness :
    (process_conversation [5] failingCollab).synthCalls = [] ∧
    (process_conversation [5] failingCollab).sent = [] :=
  claim_c4_transcription_failure [5] failingCollab (fun _ => rfl)

/-- C5: if the synthesis stream yields its chunks and then fails when asked for
the next one, exactly the yielded chunks are forwarded to the client: the bytes
sent equal the concatenation of the yielded chunks in order, and the sent
sequence is a sublist of the yielded chunks (order preserved, no retry, nothing
resent or corrupted). -/
theorem claim_c5_synth_failure (text : List Nat)
    (convert : List Nat → Except Unit SynthStream) (st : SynthStream)
    (htext : strip text ≠ []) (hconv : convert text = Except.ok st)
    (hfails : st.fails = true) :
    ((generate_and_stream_elevenlabs_audio text convert).2).flatten =
      st.chunks.flatten ∧
    List.Sublist (generate_and_stream_elevenlabs_audio text convert).2 st.chunks := by
  unfold generate_and_stream_elevenlabs_audio
  rw [if_neg htext, hconv]
  exact ⟨flatten_filter_isEmpty _, List.filter_sublist _⟩

/-- Witness for C5: a stream yielding AA and BB then failing forwards exactly
those two chunks. -/
theorem claim_c5_synth_failure_witness :
    ((generate_and_stream_elevenlabs_audio [104]
        (fun _ => Except.ok ⟨[[65, 65], [66, 66]], true⟩)).2).flatten =
      ([[65, 65], [66, 66]] : List (List Nat)).flatten ∧
    List.Sublist (generate_and_stream_elevenlabs_audio [104]
        (fun _ => Except.ok ⟨[[65, 65], [66, 66]], true⟩)).2
      [[65, 65], [66, 66]] :=
  claim_c5_synth_failure [104] (fun _ => Except.ok ⟨[[65, 65], [66, 66]], true⟩)
    ⟨[[65, 65], [66, 66]], true⟩ (by decide) rfl rfl

/-- C10: empty chunks yielded by the synthesis stream are skipped: the chunks
sent are exactly the non-empty yielded chunks in their original order, no
empty chunk is ever written, the relay does not stop at an empty chunk, and
the total bytes sent equal the concatenation of the non-empty chunks. -/
theorem claim_c10_empty_chunk_skipped (text : List Nat)
    (convert : List Nat → Except Unit SynthStream) (st : SynthStream)
    (htext : strip text ≠ []) (hconv : convert text = Except.ok st) :
    (generate_and_stream_elevenlabs_audio text convert).2 =
      st.chunks.filter (fun c => !c.isEmpty) ∧
    ((generate_and_stream_elevenlabs_audio text convert).2).flatten =
      st.chunks.flatten ∧
    [] ∉ (generate_and_stream_elevenlabs_audio text convert).2 := by
  unfold generate_and_stream_elevenlabs_audio
  rw [if_neg htext, hconv]
  refine ⟨rfl, flatten_filter_isEmpty _, ?_⟩
  intro hmem
  have hp := List.of_mem_filter hmem
  simp at hp

/-- Witness for C10: a stream yielding a byte chunk, an empty chunk, and
another byte chunk sends exactly the two non-empty chunks. -/
theorem claim_c10_empty_chunk_skipped_witness :
    (generate_and_stream_elevenlabs_audio [104]
        (fun _ => Except.ok ⟨[[65], [], [66]], false⟩)).2 =
      ([[65], [], [66]] : List (List Nat)).filter (fun c => !c.isEmpty) ∧
    ((generate_and_stream_elevenlabs_audio [104]
        (fun _ => Except.ok ⟨[[65], [], [66]], false⟩)).2).flatten =
      ([[65], [], [66]] : List (List Nat)).flatten ∧
    [] ∉ (generate_and_stream_elevenlabs_audio [104]
        (fun _ => Except.ok ⟨[[65], [], [66]], false⟩)).2 :=
  claim_c10_empty_chunk_skipped [104] (fun _ => Except.ok ⟨[[65], [], [66]], false⟩)
    ⟨[[65], [], [66]], false⟩ (by decide) rfl

/-- C2: when a received chunk contains the termination marker, only the bytes
strictly preceding the first occurrence of the marker are appended and the
receive loop terminates by marker; the chunk decomposes as those bytes, the
marker, and a discarded suffix.  In particular, when the marker arrives as its
own chunk after marker-free non-empty chunks, the accumulated audio is exactly
the concatenation of all prior chunks. -/
theorem claim_c2_marker_split :
    (∀ buffer d pre rest, splitBefore END_RECORDING_SIGNAL d = some pre →
      (∃ suf, d = pre ++ END_RECORDING_SIGNAL ++ suf) ∧
      recvLoop buffer (RecvEvent.chunk d :: rest) =
        (buffer ++ pre, TermReason.marker)) ∧
    (∀ (chunks : List (List Nat)) (rest : List RecvEvent),
      (∀ c ∈ chunks, c ≠ [] ∧ splitBefore END_RECORDING_SIGNAL c = none) →
      recvLoop []
          (chunks.map RecvEvent.chunk ++ RecvEvent.chunk END_RECORDING_SIGNAL :: rest) =
        (chunks.flatten, TermReason.marker)) := by
  constructor
  · intro buffer d pre rest h
    exact ⟨splitBefore_some _ _ _ h, recvLoop_marker_step buffer d pre rest h⟩
  · intro chunks rest h
    rw [recvLoop_append chunks [] (RecvEvent.chunk END_RECORDING_SIGNAL :: rest) h,
      recvLoop_marker_step _ _ _ _ (splitBefore_self END_RECORDING_SIGNAL)]
    simp

/-- Witness for C2: a chunk carrying the byte 7, then the marker, then the
byte 9 appends only [7]; the marker as its own chunk after the chunk [1, 2]
leaves exactly [1, 2]. -/
theorem claim_c2_marker_split_witness :
    ((∃ suf, ([7] ++ END_RECORDING_SIGNAL ++ [9] : List Nat) =
        [7] ++ END_RECORDING_SIGNAL ++ suf) ∧
      recvLoop [] [RecvEvent.chunk ([7] ++ END_RECORDING_SIGNAL ++ [9])] =
        ([] ++ [7], TermReason.marker)) ∧
    recvLoop []
        ([[1, 2]].map RecvEvent.chunk ++ RecvEvent.chunk END_RECORDING_SIGNAL :: []) =
      (([[1, 2]] : List (List Nat)).flatten, TermReason.marker) :=
  ⟨claim_c2_marker_split.1 [] ([7] ++ END_RECORDING_SIGNAL ++ [9]) [7] [] (by decide),
   claim_c2_marker_split.2 [[1, 2]] [] (by decide)⟩

/-- C6: for every sequence of non-empty received chunks none of which contains
the marker, the accumulated buffer at termination (here the peer closing) is
byte-identical to the concatenation of the chunks: accumulation is a
concatenation homomorphism over chunkings. -/
theorem claim_c6_accumulation (chunks : List (List Nat))
    (h : ∀ c ∈ chunks, c ≠ [] ∧ splitBefore END_RECORDING_SIGNAL c = none) :
    recvLoop [] (chunks.map RecvEvent.chunk ++ [RecvEvent.chunk []]) =
      (chunks.flatten, TermReason.disconnect) := by
  rw [recvLoop_append chunks [] [RecvEvent.chunk []] h]
  simp [recvLoop]

/-- Witness for C6 at the chunking [[1], [2, 3]]. -/
theorem claim_c6_accumulation_witness :
    recvLoop [] ([[1], [2, 3]].map RecvEvent.chunk ++ [RecvEvent.chunk []]) =
      (([[1], [2, 3]] : List (List Nat)).flatten, TermReason.disconnect) :=
  claim_c6_accumulation [[1], [2, 3]] (by decide)

/-- C9: the marker is detected exactly when it lies wholly inside one received
chunk: a chunk in which the marker occurs terminates the loop by marker; any
marker-terminated run processed some chunk wholly containing the marker; and
on the concrete stream splitting the marker across two chunks no termination
by marker is signaled: the session ends by disconnect with all twenty marker
bytes appended to the audio buffer, where the marker then occurs. -/
theorem claim_c9_marker_split_limitation :
    (∀ buffer d pre rest, splitBefore END_RECORDING_SIGNAL d = some pre →
      (recvLoop buffer (RecvEvent.chunk d :: rest)).2 = TermReason.marker) ∧
    (∀ buffer evs, (recvLoop buffer evs).2 = TermReason.marker →
      ∃ d pre, RecvEvent.chunk d ∈ evs ∧
        splitBefore END_RECORDING_SIGNAL d = some pre) ∧
    (recvLoop [] [RecvEvent.chunk ([1] ++ END_RECORDING_SIGNAL.take 10),
        RecvEvent.chunk (END_RECORDING_SIGNAL.drop 10), RecvEvent.chunk []] =
      ([1] ++ END_RECORDING_SIGNAL, TermReason.disconnect)) ∧
    (splitBefore END_RECORDING_SIGNAL ([1] ++ END_RECORDING_SIGNAL) = some [1]) := by
  refine ⟨?_, ?_, by decide, by decide⟩
  · intro buffer d pre rest h
    rw [recvLoop_marker_step buffer d pre rest h]
  · intro buffer evs
    induction evs generalizing buffer with
    | nil =>
      intro h
      simp [recvLoop] at h
    | cons e rest ih =>
      cases e with
      | err =>
        intro h
        simp [recvLoop] at h
      | chunk d =>
        intro h
        by_cases hd : d = []
        · subst hd
          simp [recvLoop] at h
        · rcases hsp : splitBefore END_RECORDING_SIGNAL d with _ | pre
          · simp only [recvLoop, if_neg hd, hsp] at h
            obtain ⟨d0, pre0, hmem, hsp0⟩ := ih (buffer ++ d) h
            exact ⟨d0, pre0, by simp [hmem], hsp0⟩
          · exact ⟨d, pre, by simp, hsp⟩

/-- Witness for C9: the marker as a whole chunk is detected, and a detection
exhibits the marker wholly inside a processed chunk. -/
theorem claim_c9_marker_split_limitation_witness :
    (recvLoop [] [RecvEvent.chunk END_RECORDING_SIGNAL]).2 = TermReason.marker ∧
    ∃ d pre, RecvEvent.chunk d ∈ [RecvEvent.chunk END_RECORDING_SIGNAL] ∧
      splitBefore END_RECORDING_SIGNAL d = some pre :=
  ⟨claim_c9_marker_split_limitation.1 [] END_RECORDING_SIGNAL [] [] (by decide),
   claim_c9_marker_split_limitation.2.1 [] [RecvEvent.chunk END_RECORDING_SIGNAL]
     (by decide)⟩

set_option maxRecDepth 8192 in
/-- C7 counterexample: for the 200-byte payload of the end-to-end scenario the
WAV container has 244 bytes (44-byte header plus 200-byte payload), not the
636 bytes the claim states. -/
theorem claim_c7_counterexample :
    (create_wav_header ((List.replicate 100 [1, 2]).flatten)
        SAMPLE_RATE CHANNELS SAMPLE_WIDTH).map List.length = some 244 ∧
    (create_wav_header ((List.replicate 100 [1, 2]).flatten)
        SAMPLE_RATE CHANNELS SAMPLE_WIDTH).map List.length ≠ some 636 := by
  decide

set_option maxRecDepth 8192 in
/-- C7 amended: in the end-to-end scenario (client sends the 200-byte payload,
then the marker; mock transcription answers hello; mock synthesis yields the
chunks AA and BB) the receive loop terminates by marker holding exactly the
payload, the WAV container passed to transcription has 244 bytes, synthesis is
called once on hello, and the client receives exactly the bytes AABB. -/
theorem claim_c7_scenario :
    recvLoop [] [RecvEvent.chunk ((List.replicate 100 [1, 2]).flatten),
        RecvEvent.chunk END_RECORDING_SIGNAL] =
      ((List.replicate 100 [1, 2]).flatten, TermReason.marker) ∧
    (runSession [RecvEvent.chunk ((List.replicate 100 [1, 2]).flatten),
        RecvEvent.chunk END_RECORDING_SIGNAL] mockCollab).transcribeCalls.map
        List.length = [244] ∧
    (runSession [RecvEvent.chunk ((List.replicate 100 [1, 2]).flatten),
        RecvEvent.chunk END_RECORDING_SIGNAL] mockCollab).synthCalls =
      [[104, 101, 108, 108, 111]] ∧
    (runSession [RecvEvent.chunk ((List.replicate 100 [1, 2]).flatten),
        RecvEvent.chunk END_RECORDING_SIGNAL] mockCollab).sent =
      [[65, 65], [66, 66]] ∧
    ((runSession [RecvEvent.chunk ((List.replicate 100 [1, 2]).flatten),
        RecvEvent.chunk END_RECORDING_SIGNAL] mockCollab).sent).flatten =
      [65, 65, 66, 66] := by
  decide

set_option maxRecDepth 8192 in
/-- C8 counterexample: after a socket error following one received audio byte,
the code does not abort the session: the transcription collaborator is called
with the 45-byte WAV container of the partially accumulated audio, and
response bytes are then sent to the client. -/
theorem claim_c8_counterexample :
    (runSession [RecvEvent.chunk [1], RecvEvent.err] mockCollab).transcribeCalls.map
        List.length = [45] ∧
    (runSession [RecvEvent.chunk [1], RecvEvent.err] mockCollab).transcribeCalls ≠ [] ∧
    (runSession [RecvEvent.chunk [1], RecvEvent.err] mockCollab).sent ≠ [] := by
  decide

/-- C8 amended: a socket error stops the receive loop, keeping the audio
accumulated so far and ignoring all later events, and the session then
proceeds normally rather than aborting: with a non-empty fitting buffer the
transcription collaborator is still called exactly once, on the WAV container
of the partial audio; the error is consumed inside the session, which runs to
completion. -/
theorem claim_c8_amended (buffer : List Nat) (rest : List RecvEvent)
    (collab : Collaborators) (h1 : buffer ≠ []) (h2 : buffer.length + 36 < 2 ^ 32) :
    recvLoop buffer (RecvEvent.err :: rest) = (buffer, TermReason.sockErr) ∧
    ∃ w, create_wav_header buffer SAMPLE_RATE CHANNELS SAMPLE_WIDTH = some w ∧
      (process_conversation buffer collab).transcribeCalls = [w] :=
  ⟨rfl, process_conversation_calls buffer collab h1 h2⟩

/-- Witness for the amended C8 at the one-byte buffer [1]. -/
theorem claim_c8_amended_witness :
    recvLoop [1] [RecvEvent.err] = ([1], TermReason.sockErr) ∧
    ∃ w, create_wav_header [1] SAMPLE_RATE CHANNELS SAMPLE_WIDTH = some w ∧
      (process_conversation [1] mockCollab).transcribeCalls = [w] :=
  claim_c8_amended [1] [] mockCollab (by decide) (by decide)

end Server
